import Mathlib

/-!
Shallow embedding of `src/app/services/embeddings_service.py`
(Contextual-FAQ-assistant).

The module provides:
* `limit_token_length` — token-aware truncation via an abstract tokenizer
  (the tiktoken collaborator is modelled as an opaque encode/decode pair);
* `OpenAIEmbeddingsService` — a process-wide singleton holding a provider
  connection and a text-to-vector cache, with `compute_embedding`,
  `compute_batch_embeddings` and `clear_cache`.

Python-specific behaviour that matters to the claims is modelled explicitly:
* object attributes that may be unset (`cache`, `embeddings_model`,
  `initialized`) are `Option`-valued / Bool-valued;
* Python object identity is modelled by an `objId` allocated at
  `object.__new__` time;
* constructing `OpenAIEmbeddingsService(model)` runs `__new__` (which may
  itself call `__init__`) and then runs `__init__` again on the returned
  object, exactly as the Python object protocol does;
* provider calls made during an operation are recorded in a `calls` trace,
  so that "zero provider calls" and "called with the untruncated texts"
  are directly statable;
* numpy values are distinguished from plain lists by the `PyVec` type
  (`plain` for a Python list of numbers, `ndarray` for a numpy array), with
  floats modelled as `ℚ`.
-/

set_option autoImplicit false

namespace EmbeddingsService

/-- The tokenizer collaborator (tiktoken `cl100k_base`): an opaque
encode/decode pair over an abstract token type `τ`. -/
structure Tokenizer (τ : Type) where
  encode : String → List τ
  decode : List τ → String

/-- `limit_token_length(text, max_tokens=2000)`: encode, and if the token
count exceeds `max_tokens`, keep the first `max_tokens` tokens and decode
them back; otherwise return `text` unchanged.  The source's default
`max_tokens` is 2000; callers inside the service pass it explicitly here. -/
def limit_token_length {τ : Type} (tk : Tokenizer τ) (text : String)
    (max_tokens : Nat) : String :=
  let tokens := tk.encode text
  if tokens.length > max_tokens then tk.decode (tokens.take max_tokens)
  else text

/-- A value that may flow out of the service: a plain Python list of numbers,
or a numpy ndarray (as produced by `np.array`). -/
inductive PyVec where
  | plain (data : List ℚ)
  | ndarray (data : List ℚ)
deriving DecidableEq

/-- The underlying numbers of a `PyVec`. -/
def PyVec.data : PyVec → List ℚ
  | .plain l => l
  | .ndarray l => l

/-- `np.array(v)` applied to a list-like value: yields an ndarray over the
same numbers. -/
def npArray (v : PyVec) : PyVec := .ndarray v.data

/-- `v.tolist()` on an ndarray: yields a plain Python list of its numbers. -/
def npTolist (v : PyVec) : PyVec := .plain v.data

/-- The cache: a Python dict from exact text strings to stored vectors.
Modelled as an association list with Python-dict insert semantics. -/
abbrev Cache := List (String × PyVec)

/-- Key membership test (`text in self.cache`). -/
def dictMem (c : Cache) (k : String) : Bool :=
  match c with
  | [] => false
  | (k', _) :: rest => k = k' || dictMem rest k

/-- Dict subscript lookup (`self.cache[text]`). -/
def dictLookup (c : Cache) (k : String) : Option PyVec :=
  match c with
  | [] => none
  | (k', v) :: rest => if k = k' then some v else dictLookup rest k

/-- Dict assignment (`self.cache[k] = v`): overwrite in place if the key
exists, otherwise append. -/
def dictInsert (c : Cache) (k : String) (v : PyVec) : Cache :=
  match c with
  | [] => [(k, v)]
  | (k', v') :: rest =>
    if k = k' then (k', v) :: rest else (k', v') :: dictInsert rest k v

/-- The provider connection object (`OpenAIEmbeddings(model=..., api_key=...)`):
the configuration it was constructed with. -/
structure OpenAIEmbeddings where
  model : String
  api_key : String
deriving DecidableEq

/-- The behaviour of the provider collaborator behind the connection:
`embed_query` / `embed_documents`, each either returning vectors (plain
sequences of numbers, per the collaborator contract) or failing with an
underlying error, modelled as a `String`. -/
structure Provider where
  embed_query : String → Except String (List ℚ)
  embed_documents : List String → Except String (List (List ℚ))

/-- The errors the embedded code can raise. `envError` is the
`EnvironmentError` raised for a missing API key (the spec's
`ConfigurationError`); `attributeError` is Python's `AttributeError` on
access to an attribute that was never set; `embeddingComputationError`
is `EmbeddingComputationError`, carrying the wrapped underlying cause. -/
inductive PyErr where
  | envError
  | attributeError
  | embeddingComputationError (cause : String)
deriving DecidableEq

/-- One `OpenAIEmbeddingsService` object.  Attributes are `Option`-valued
because a freshly allocated object has none of them set; `initialized`
models `hasattr(self, 'initialized')`; `objId` models Python object
identity (allocated once per `object.__new__`). -/
structure PyObj where
  objId : Nat
  embeddings_model : Option OpenAIEmbeddings
  cache : Option Cache
  initialized : Bool
deriving DecidableEq

/-- The module-level `settings` object; `openai_api_key` may be unset
(`none`) or set to a string (the empty string is falsy in Python, like
absence). -/
structure Settings where
  openai_api_key : Option String
deriving DecidableEq

/-- Python truthiness of the credential: `not openai_api_key`. -/
def Settings.keyFalsy (s : Settings) : Bool := s.openai_api_key.getD "" = ""

/-- The class-level state: `OpenAIEmbeddingsService._instance` plus a
fresh-identity counter for newly allocated objects. -/
structure ClsState where
  instSlot : Option PyObj
  nextId : Nat
deriving DecidableEq

/-- The class state at process start: `_instance = None`. -/
def initialState : ClsState := ⟨none, 0⟩

/-- `__init__(self, model)`: if `initialized` is not yet set, check the
credential (raising `EnvironmentError` when it is falsy) and build the
provider connection; then, unconditionally, reset `self.cache` to the
empty dict and set `self.initialized = True`. -/
def pyInit (s : Settings) (self : PyObj) (model : String) :
    Except PyErr PyObj :=
  if self.initialized then
    .ok { self with cache := some [], initialized := true }
  else if s.keyFalsy then
    .error .envError
  else
    .ok { self with
      embeddings_model := some ⟨model, s.openai_api_key.getD ""⟩,
      cache := some [],
      initialized := true }

/-- `__new__(cls, model)`: if `_instance` is `None`, allocate a bare object,
assign it to `_instance` FIRST, and then call `__init__` on it (so a
failing `__init__` still leaves `_instance` pointing at the bare object);
return `_instance`. -/
def pyNew (s : Settings) (st : ClsState) (model : String) :
    ClsState × Except PyErr PyObj :=
  match st.instSlot with
  | some inst => (st, .ok inst)
  | none =>
    let bare : PyObj := ⟨st.nextId, none, none, false⟩
    match pyInit s bare model with
    | .error e => (⟨some bare, st.nextId + 1⟩, .error e)
    | .ok obj => (⟨some obj, st.nextId + 1⟩, .ok obj)

/-- Evaluating `OpenAIEmbeddingsService(model)`: Python runs `__new__`, and
because the returned object is an instance of the class, runs `__init__`
on it again with the same argument.  Mutation of the returned object is
mutation of `_instance` (they alias). -/
def construct (s : Settings) (st : ClsState) (model : String) :
    ClsState × Except PyErr PyObj :=
  match pyNew s st model with
  | (st', .error e) => (st', .error e)
  | (st', .ok obj) =>
    match pyInit s obj model with
    | .error e => (st', .error e)
    | .ok obj' => ({ st' with instSlot := some obj' }, .ok obj')

/-- A provider interaction recorded while an operation ran. -/
inductive ProviderCall where
  | embedOne (text : String)
  | embedMany (texts : List String)
deriving DecidableEq

/-- Result of running a method on the service: the object afterwards, the
returned value or raised error, and the trace of provider calls made. -/
structure Outcome (α : Type) where
  inst : PyObj
  result : Except PyErr α
  calls : List ProviderCall

/-- `compute_embedding(self, text)`: cache lookup on the original `text`
(hit returns the stored value unchanged); on miss, truncate to 2000 tokens,
call the provider's `embed_query` on the truncated text (any exception in
the `try` block, including a missing `embeddings_model` attribute, becomes
`EmbeddingComputationError`), store the result under the truncated text,
and return `np.array(self.cache[text]).tolist()`. -/
def compute_embedding {τ : Type} (P : Provider) (tk : Tokenizer τ)
    (self : PyObj) (text : String) : Outcome PyVec :=
  match self.cache with
  | none => ⟨self, .error .attributeError, []⟩
  | some c =>
    match dictLookup c text with
    | some v => ⟨self, .ok v, []⟩
    | none =>
      let text' := limit_token_length tk text 2000
      match self.embeddings_model with
      | none => ⟨self, .error (.embeddingComputationError "AttributeError"), []⟩
      | some _ =>
        match P.embed_query text' with
        | .error e =>
          ⟨self, .error (.embeddingComputationError e), [.embedOne text']⟩
        | .ok emb =>
          let c' := dictInsert c text' (.plain emb)
          let stored := (dictLookup c' text').getD (.plain emb)
          ⟨{ self with cache := some c' },
           .ok (npTolist (npArray stored)), [.embedOne text']⟩

/-- `compute_batch_embeddings(self, texts)`: call `embed_documents` on the
untruncated input list (a missing `embeddings_model` attribute raises
inside the `try` and is wrapped too) and return one `np.array` per
returned embedding; the cache is never touched. -/
def compute_batch_embeddings (P : Provider) (self : PyObj)
    (texts : List String) : Outcome (List PyVec) :=
  match self.embeddings_model with
  | none => ⟨self, .error (.embeddingComputationError "AttributeError"), []⟩
  | some _ =>
    match P.embed_documents texts with
    | .error e =>
      ⟨self, .error (.embeddingComputationError e), [.embedMany texts]⟩
    | .ok embs =>
      ⟨self, .ok (embs.map PyVec.ndarray), [.embedMany texts]⟩

/-- `clear_cache(self)`: empty the cache dict in place. -/
def clear_cache (self : PyObj) : Outcome Unit :=
  match self.cache with
  | none => ⟨self, .error .attributeError, []⟩
  | some _ => ⟨{ self with cache := some [] }, .ok (), []⟩

/-- All values stored in a cache are plain lists of numbers. -/
def cacheAllPlain (c : Cache) : Bool :=
  c.all fun p => match p.2 with | .plain _ => true | .ndarray _ => false

/-! Concrete collaborators used by the witnesses. -/

/-- A concrete exact tokenizer for witnesses: one token per character. -/
def charTok : Tokenizer Char := ⟨String.data, String.mk⟩

/-- A concrete provider for witnesses: every single-text call returns `[1]`,
every batch call returns one `[2]` per input. -/
def okProvider : Provider :=
  ⟨fun _ => .ok [1], fun ts => .ok (ts.map fun _ => [2])⟩

/-- A concrete provider for witnesses whose single-text call always fails. -/
def failProvider : Provider :=
  ⟨fun _ => .error "boom", fun _ => .error "boom"⟩

/-- A concrete fully initialized service object with an empty cache. -/
def readyObj : PyObj := ⟨0, some ⟨"text-embedding-3-small", "sk"⟩, some [], true⟩

/-- Settings with the credential absent. -/
def noKeySettings : Settings := ⟨none⟩

/-- Settings with a valid credential. -/
def goodSettings : Settings := ⟨some "sk"⟩

/-! Helper lemmas about the cache dict. -/

theorem dictLookup_dictInsert_self (c : Cache) (k : String) (v : PyVec) :
    dictLookup (dictInsert c k v) k = some v := by
  induction c with
  | nil => simp [dictInsert, dictLookup]
  | cons p rest ih =>
    by_cases h : k = p.1
    · simp [dictInsert, dictLookup, h]
    · simp [dictInsert, dictLookup, h, ih]

theorem dictLookup_dictInsert_ne (c : Cache) (k k' : String) (v : PyVec)
    (h : k' ≠ k) :
    dictLookup (dictInsert c k v) k' = dictLookup c k' := by
  induction c with
  | nil => simp [dictInsert, dictLookup, h]
  | cons p rest ih =>
    by_cases hk : k = p.1
    · subst hk
      simp [dictInsert, dictLookup, h]
    · by_cases hk' : k' = p.1
      · simp [dictInsert, dictLookup, hk, hk']
      · simp [dictInsert, dictLookup, hk, hk', ih]

theorem cacheAllPlain_lookup {c : Cache} {k : String} {v : PyVec}
    (hall : cacheAllPlain c = true) (hlk : dictLookup c k = some v) :
    ∃ l, v = PyVec.plain l := by
  induction c with
  | nil => simp [dictLookup] at hlk
  | cons p rest ih =>
    simp only [cacheAllPlain, List.all_cons, Bool.and_eq_true] at hall
    simp only [dictLookup] at hlk
    by_cases h : k = p.1
    · rw [if_pos h] at hlk
      have hpv : p.2 = v := Option.some.inj hlk
      cases hv : p.2 with
      | plain l => exact ⟨l, by rw [← hpv, hv]⟩
      | ndarray l =>
        have hp := hall.1
        rw [hv] at hp
        simp at hp
    · rw [if_neg h] at hlk
      exact ih hall.2 hlk

theorem limit_token_length_of_le {τ : Type} (tk : Tokenizer τ) (text : String)
    (max_tokens : Nat) (h : (tk.encode text).length ≤ max_tokens) :
    limit_token_length tk text max_tokens = text := by
  simp [limit_token_length, Nat.not_lt.mpr h]

theorem limit_token_length_of_gt {τ : Type} (tk : Tokenizer τ) (text : String)
    (max_tokens : Nat) (h : (tk.encode text).length > max_tokens) :
    limit_token_length tk text max_tokens =
      tk.decode ((tk.encode text).take max_tokens) := by
  simp [limit_token_length, h]

theorem cacheAllPlain_dictInsert {c : Cache} (k : String) (l : List ℚ)
    (hall : cacheAllPlain c = true) :
    cacheAllPlain (dictInsert c k (.plain l)) = true := by
  induction c with
  | nil => simp [dictInsert, cacheAllPlain]
  | cons p rest ih =>
    simp only [cacheAllPlain, List.all_cons, Bool.and_eq_true] at hall
    by_cases h : k = p.1
    · simp [dictInsert, h, cacheAllPlain, List.all_cons, hall.2]
    · simpa [dictInsert, h, cacheAllPlain, List.all_cons, hall.1]
        using ih hall.2

/-! Claim theorems. -/

/-- C5: for every text already present as a cache key (pre-truncation, exact
string), `compute_embedding` returns the stored vector immediately, with
the object unchanged, an empty provider-call trace, and the same outcome
for every provider and every tokenizer (so neither truncation nor the
provider is consulted). -/
theorem C5_cache_hit_returns_stored {τ : Type} (P : Provider)
    (tk : Tokenizer τ) (self : PyObj) (text : String) (c : Cache) (v : PyVec)
    (hc : self.cache = some c) (hhit : dictLookup c text = some v) :
    compute_embedding P tk self text = ⟨self, .ok v, []⟩ := by
  simp [compute_embedding, hc, hhit]

/-- Witness for C5 at a concrete cached text. -/
theorem C5_witness :
    compute_embedding okProvider charTok
      ⟨0, some ⟨"text-embedding-3-small", "sk"⟩,
        some [("hello", PyVec.plain [2])], true⟩ "hello" =
      ⟨⟨0, some ⟨"text-embedding-3-small", "sk"⟩,
        some [("hello", PyVec.plain [2])], true⟩, .ok (PyVec.plain [2]), []⟩ :=
  C5_cache_hit_returns_stored okProvider charTok _ "hello"
    [("hello", PyVec.plain [2])] (PyVec.plain [2]) rfl rfl

/-- C6: on a cache miss whose provider call fails, `compute_embedding`
raises `EmbeddingComputationError` wrapping the provider's underlying
error, and the object (hence the cache) is unchanged. -/
theorem C6_provider_failure_raises_and_preserves_cache {τ : Type}
    (P : Provider) (tk : Tokenizer τ) (self : PyObj) (text : String)
    (c : Cache) (em : OpenAIEmbeddings) (e : String)
    (hc : self.cache = some c) (hmiss : dictLookup c text = none)
    (hm : self.embeddings_model = some em)
    (hp : P.embed_query (limit_token_length tk text 2000) = .error e) :
    compute_embedding P tk self text =
      ⟨self, .error (.embeddingComputationError e),
        [.embedOne (limit_token_length tk text 2000)]⟩ := by
  simp [compute_embedding, hc, hmiss, hm, hp]

/-- Witness for C6 at a concrete failing provider. -/
theorem C6_witness :
    compute_embedding failProvider charTok readyObj "hello" =
      ⟨readyObj, .error (.embeddingComputationError "boom"),
        [.embedOne (limit_token_length charTok "hello" 2000)]⟩ :=
  C6_provider_failure_raises_and_preserves_cache failProvider charTok
    readyObj "hello" [] ⟨"text-embedding-3-small", "sk"⟩ "boom"
    rfl rfl rfl rfl

/-- C7: `limit_token_length` returns the text unchanged when its token
count is at most `max_tokens`, and otherwise returns the decoding of
exactly the first `max_tokens` tokens, in original order. -/
theorem C7_limit_cases {τ : Type} (tk : Tokenizer τ) (text : String)
    (max_tokens : Nat) :
    ((tk.encode text).length ≤ max_tokens →
      limit_token_length tk text max_tokens = text) ∧
    ((tk.encode text).length > max_tokens →
      limit_token_length tk text max_tokens =
        tk.decode ((tk.encode text).take max_tokens)) :=
  ⟨limit_token_length_of_le tk text max_tokens,
   limit_token_length_of_gt tk text max_tokens⟩

/-- Witness for C7: one concrete text within the limit and one over it. -/
theorem C7_witness :
    limit_token_length charTok "ab" 3 = "ab" ∧
    limit_token_length charTok "ab" 1 =
      charTok.decode ((charTok.encode "ab").take 1) :=
  ⟨(C7_limit_cases charTok "ab" 3).1 (by decide),
   (C7_limit_cases charTok "ab" 1).2 (by decide)⟩

/-- C8: when the tokenizer's decode is a section of encode (the exactness
contract of the opaque tokenizer collaborator), any text over the token
budget truncates to a text within the budget, and `limit_token_length`
is idempotent on it. -/
theorem C8_limit_bounded_and_idempotent {τ : Type} (tk : Tokenizer τ)
    (hrt : ∀ ts : List τ, tk.encode (tk.decode ts) = ts)
    (text : String) (max_tokens : Nat)
    (h : (tk.encode text).length > max_tokens) :
    (tk.encode (limit_token_length tk text max_tokens)).length ≤ max_tokens ∧
    limit_token_length tk (limit_token_length tk text max_tokens) max_tokens =
      limit_token_length tk text max_tokens := by
  have hlim : limit_token_length tk text max_tokens =
      tk.decode ((tk.encode text).take max_tokens) := by
    simp [limit_token_length, h]
  have henc : tk.encode (limit_token_length tk text max_tokens) =
      (tk.encode text).take max_tokens := by
    rw [hlim, hrt]
  have hlen : (tk.encode (limit_token_length tk text max_tokens)).length ≤
      max_tokens := by
    rw [henc, List.length_take]
    exact min_le_left _ _
  exact ⟨hlen, limit_token_length_of_le tk _ max_tokens hlen⟩

/-- Witness for C8: the character tokenizer is exact, and a two-token text
against a budget of one token. -/
theorem C8_witness :
    (charTok.encode (limit_token_length charTok "ab" 1)).length ≤ 1 ∧
    limit_token_length charTok (limit_token_length charTok "ab" 1) 1 =
      limit_token_length charTok "ab" 1 :=
  C8_limit_bounded_and_idempotent charTok (fun ts => rfl) "ab" 1 (by decide)

/-- C1: on a cache miss with a successful provider call, the vector is
stored under the post-truncation key (the cache afterwards is exactly the
old cache with the truncated text inserted), the plain vector is returned,
and whenever truncation changed the text, a second call with the identical
original text misses the cache again and makes a fresh provider call. -/
theorem C1_stores_under_truncated_key {τ : Type} (P : Provider)
    (tk : Tokenizer τ) (self : PyObj) (text : String) (c : Cache)
    (em : OpenAIEmbeddings) (v : List ℚ)
    (hc : self.cache = some c) (hmiss : dictLookup c text = none)
    (hm : self.embeddings_model = some em)
    (hp : P.embed_query (limit_token_length tk text 2000) = .ok v) :
    (compute_embedding P tk self text).result = .ok (.plain v) ∧
    (compute_embedding P tk self text).inst.cache =
      some (dictInsert c (limit_token_length tk text 2000) (.plain v)) ∧
    (limit_token_length tk text 2000 ≠ text →
      (compute_embedding P tk
        (compute_embedding P tk self text).inst text).calls =
        [.embedOne (limit_token_length tk text 2000)]) := by
  refine ⟨?_, ?_, ?_⟩
  · simp [compute_embedding, hc, hmiss, hm, hp, dictLookup_dictInsert_self,
      npTolist, npArray, PyVec.data]
  · simp [compute_embedding, hc, hmiss, hm, hp]
  · intro hne
    have h2 : dictLookup
        (dictInsert c (limit_token_length tk text 2000) (.plain v)) text =
        none := by
      rw [dictLookup_dictInsert_ne _ _ _ _ (Ne.symm hne)]
      exact hmiss
    simp [compute_embedding, hc, hmiss, hm, hp, h2]

/-- Witness for C1 at a concrete uncached text. -/
theorem C1_witness :
    (compute_embedding okProvider charTok readyObj "hello").result =
      .ok (.plain [1]) ∧
    (compute_embedding okProvider charTok readyObj "hello").inst.cache =
      some (dictInsert [] (limit_token_length charTok "hello" 2000)
        (.plain [1])) ∧
    (limit_token_length charTok "hello" 2000 ≠ "hello" →
      (compute_embedding okProvider charTok
        (compute_embedding okProvider charTok readyObj "hello").inst
        "hello").calls =
        [.embedOne (limit_token_length charTok "hello" 2000)]) :=
  C1_stores_under_truncated_key okProvider charTok readyObj "hello" []
    ⟨"text-embedding-3-small", "sk"⟩ [1] rfl rfl rfl rfl

/-- C9: under the provider contract that `embed_documents` returns one
vector per input, a successful `compute_batch_embeddings` returns exactly
`embs.map ndarray` — one vector per input text, in input order — with the
object (hence the cache) unchanged and a single batch provider call made
on the original, untruncated text list. -/
theorem C9_batch_order_preserving (P : Provider) (self : PyObj)
    (texts : List String) (em : OpenAIEmbeddings) (embs : List (List ℚ))
    (hm : self.embeddings_model = some em)
    (hp : P.embed_documents texts = .ok embs)
    (hlen : embs.length = texts.length) :
    compute_batch_embeddings P self texts =
      ⟨self, .ok (embs.map PyVec.ndarray), [.embedMany texts]⟩ ∧
    (embs.map PyVec.ndarray).length = texts.length := by
  constructor
  · simp [compute_batch_embeddings, hm, hp]
  · simpa using hlen

/-- Witness for C9 on a concrete two-element batch. -/
theorem C9_witness :
    compute_batch_embeddings okProvider readyObj ["a", "b"] =
      ⟨readyObj, .ok ([[2], [2]].map PyVec.ndarray),
        [.embedMany ["a", "b"]]⟩ ∧
    ([[2], [2]].map PyVec.ndarray).length = (["a", "b"] : List String).length :=
  C9_batch_order_preserving okProvider readyObj ["a", "b"]
    ⟨"text-embedding-3-small", "sk"⟩ [[2], [2]] rfl rfl rfl

/-- C10: when every cached value is a plain list (the invariant the service
itself maintains), every vector a successful `compute_embedding` returns —
on the cache-hit path and on the cache-miss path alike — is a plain list
of numbers, never an ndarray; and the resulting cache again holds only
plain lists. -/
theorem C10_returns_plain_list {τ : Type} (P : Provider) (tk : Tokenizer τ)
    (self : PyObj) (text : String) (c : Cache) (v : PyVec)
    (hc : self.cache = some c) (hall : cacheAllPlain c = true)
    (hok : (compute_embedding P tk self text).result = .ok v) :
    (∃ l, v = PyVec.plain l) ∧
    ∃ c', (compute_embedding P tk self text).inst.cache = some c' ∧
      cacheAllPlain c' = true := by
  cases hl : dictLookup c text with
  | some w =>
    have heq : compute_embedding P tk self text = ⟨self, .ok w, []⟩ := by
      simp [compute_embedding, hc, hl]
    rw [heq] at hok
    have hwv : w = v := by simpa using hok
    obtain ⟨l, hw⟩ := cacheAllPlain_lookup hall hl
    exact ⟨⟨l, by rw [← hwv, hw]⟩, c, by rw [heq]; exact hc, hall⟩
  | none =>
    cases hm : self.embeddings_model with
    | none => simp [compute_embedding, hc, hl, hm] at hok
    | some em =>
      cases hp : P.embed_query (limit_token_length tk text 2000) with
      | error e => simp [compute_embedding, hc, hl, hm, hp] at hok
      | ok emb =>
        have heq : compute_embedding P tk self text =
            ⟨{ self with cache := some (dictInsert c
                (limit_token_length tk text 2000) (.plain emb)) },
             .ok (.plain emb), [.embedOne (limit_token_length tk text 2000)]⟩ := by
          simp [compute_embedding, hc, hl, hm, hp, dictLookup_dictInsert_self,
            npTolist, npArray, PyVec.data]
        rw [heq] at hok
        have hv : PyVec.plain emb = v := by simpa using hok
        refine ⟨⟨emb, hv.symm⟩,
          dictInsert c (limit_token_length tk text 2000) (.plain emb),
          by rw [heq], cacheAllPlain_dictInsert _ _ hall⟩

/-- Witness for C10 on a concrete cache-miss call. -/
theorem C10_witness :
    (∃ l, PyVec.plain [1] = PyVec.plain l) ∧
    ∃ c', (compute_embedding okProvider charTok readyObj "hi").inst.cache =
      some c' ∧ cacheAllPlain c' = true :=
  C10_returns_plain_list okProvider charTok readyObj "hi" []
    (PyVec.plain [1]) rfl rfl rfl

/-! Construction (singleton) claims. -/

theorem construct_installed (s : Settings) (st : ClsState) (m : String)
    (obj : PyObj) (hslot : st.instSlot = some obj)
    (hinit : obj.initialized = true) :
    construct s st m =
      ({ st with
          instSlot := some { obj with cache := some [], initialized := true } },
       .ok { obj with cache := some [], initialized := true }) := by
  have hnew : pyNew s st m = (st, .ok obj) := by
    unfold pyNew; rw [hslot]
  have hini : pyInit s obj m =
      .ok { obj with cache := some [], initialized := true } := by
    unfold pyInit; rw [hinit]; simp
  simp [construct, hnew, hini]

theorem construct_uninstalled_init (s : Settings) (st : ClsState)
    (m : String) (obj : PyObj) (hslot : st.instSlot = some obj)
    (hinit : obj.initialized = false) (hkey : s.keyFalsy = false) :
    construct s st m =
      ({ st with
          instSlot := some { obj with
            embeddings_model := some ⟨m, s.openai_api_key.getD ""⟩,
            cache := some [], initialized := true } },
       .ok { obj with
          embeddings_model := some ⟨m, s.openai_api_key.getD ""⟩,
          cache := some [], initialized := true }) := by
  have hnew : pyNew s st m = (st, .ok obj) := by
    unfold pyNew; rw [hslot]
  have hini : pyInit s obj m = .ok { obj with
      embeddings_model := some ⟨m, s.openai_api_key.getD ""⟩,
      cache := some [], initialized := true } := by
    unfold pyInit; rw [hinit, hkey]; simp
  simp [construct, hnew, hini]

theorem construct_uninstalled_nokey (s : Settings) (st : ClsState)
    (m : String) (obj : PyObj) (hslot : st.instSlot = some obj)
    (hinit : obj.initialized = false) (hkey : s.keyFalsy = true) :
    construct s st m = (st, .error .envError) := by
  have hnew : pyNew s st m = (st, .ok obj) := by
    unfold pyNew; rw [hslot]
  have hini : pyInit s obj m = .error .envError := by
    unfold pyInit; rw [hinit, hkey]; simp
  simp [construct, hnew, hini]

theorem construct_fresh (s : Settings) (st : ClsState) (m : String)
    (hslot : st.instSlot = none) (hkey : s.keyFalsy = false) :
    construct s st m =
      (⟨some ⟨st.nextId, some ⟨m, s.openai_api_key.getD ""⟩, some [], true⟩,
        st.nextId + 1⟩,
       .ok ⟨st.nextId, some ⟨m, s.openai_api_key.getD ""⟩, some [], true⟩) := by
  have hini1 : pyInit s ⟨st.nextId, none, none, false⟩ m =
      .ok ⟨st.nextId, some ⟨m, s.openai_api_key.getD ""⟩, some [], true⟩ := by
    unfold pyInit; simp [hkey]
  have hnew : pyNew s st m =
      (⟨some ⟨st.nextId, some ⟨m, s.openai_api_key.getD ""⟩, some [], true⟩,
        st.nextId + 1⟩,
       .ok ⟨st.nextId, some ⟨m, s.openai_api_key.getD ""⟩, some [], true⟩) := by
    unfold pyNew; rw [hslot]; simp [hini1]
  have hini2 : pyInit s
      ⟨st.nextId, some ⟨m, s.openai_api_key.getD ""⟩, some [], true⟩ m =
      .ok ⟨st.nextId, some ⟨m, s.openai_api_key.getD ""⟩, some [], true⟩ := by
    unfold pyInit; simp
  simp [construct, hnew, hini2]

theorem construct_fresh_nokey (s : Settings) (st : ClsState) (m : String)
    (hslot : st.instSlot = none) (hkey : s.keyFalsy = true) :
    construct s st m =
      (⟨some ⟨st.nextId, none, none, false⟩, st.nextId + 1⟩,
       .error .envError) := by
  have hini1 : pyInit s ⟨st.nextId, none, none, false⟩ m =
      .error .envError := by
    unfold pyInit; simp [hkey]
  have hnew : pyNew s st m =
      (⟨some ⟨st.nextId, none, none, false⟩, st.nextId + 1⟩,
       .error .envError) := by
    unfold pyNew; rw [hslot]; simp [hini1]
  simp [construct, hnew]

theorem construct_ok_spec (s : Settings) (st : ClsState) (m : String)
    (obj : PyObj) (h : (construct s st m).2 = .ok obj) :
    (construct s st m).1.instSlot = some obj ∧ obj.initialized = true ∧
    obj.cache = some [] := by
  cases hst : st.instSlot with
  | some inst =>
    cases hinit : inst.initialized with
    | true =>
      rw [construct_installed s st m inst hst hinit] at h ⊢
      simp only [Except.ok.injEq] at h
      subst h
      exact ⟨rfl, rfl, rfl⟩
    | false =>
      cases hkey : s.keyFalsy with
      | true =>
        rw [construct_uninstalled_nokey s st m inst hst hinit hkey] at h
        simp at h
      | false =>
        rw [construct_uninstalled_init s st m inst hst hinit hkey] at h ⊢
        simp only [Except.ok.injEq] at h
        subst h
        exact ⟨rfl, rfl, rfl⟩
  | none =>
    cases hkey : s.keyFalsy with
    | true =>
      rw [construct_fresh_nokey s st m hst hkey] at h
      simp at h
    | false =>
      rw [construct_fresh s st m hst hkey] at h ⊢
      simp only [Except.ok.injEq] at h
      subst h
      exact ⟨rfl, rfl, rfl⟩

/-- C3: every construction call that returns normally — including calls
made after the singleton already exists and is initialized — returns the
installed instance with an empty cache: the cache reset runs
unconditionally, outside the one-time-initialization guard. -/
theorem C3_construction_resets_cache (s : Settings) (st : ClsState)
    (m : String) (obj : PyObj) (h : (construct s st m).2 = .ok obj) :
    obj.cache = some [] ∧ (construct s st m).1.instSlot = some obj :=
  ⟨(construct_ok_spec s st m obj h).2.2, (construct_ok_spec s st m obj h).1⟩

/-- Witness for C3: a construction call on an already-initialized singleton
whose cache is nonempty empties the cache. -/
theorem C3_witness :
    (⟨0, some ⟨"text-embedding-3-small", "sk"⟩, some [], true⟩ :
      PyObj).cache = some [] ∧
    (construct goodSettings
      ⟨some ⟨0, some ⟨"text-embedding-3-small", "sk"⟩,
        some [("hello", PyVec.plain [2])], true⟩, 1⟩
      "text-embedding-3-small").1.instSlot =
      some ⟨0, some ⟨"text-embedding-3-small", "sk"⟩, some [], true⟩ :=
  C3_construction_resets_cache goodSettings
    ⟨some ⟨0, some ⟨"text-embedding-3-small", "sk"⟩,
      some [("hello", PyVec.plain [2])], true⟩, 1⟩
    "text-embedding-3-small"
    ⟨0, some ⟨"text-embedding-3-small", "sk"⟩, some [], true⟩ rfl

/-- C4: after a successful construction, a later construction call — with
any model argument — returns an object with the same Python identity
(`objId`) and the same provider connection (so the later model argument is
ignored and the first caller's model is kept). -/
theorem C4_singleton_identity_and_model_ignored (s : Settings)
    (st : ClsState) (m m₂ : String) (obj : PyObj)
    (h : (construct s st m).2 = .ok obj) :
    ∃ obj₂ : PyObj,
      (construct s (construct s st m).1 m₂).2 = .ok obj₂ ∧
      (construct s (construct s st m).1 m₂).1.instSlot = some obj₂ ∧
      obj₂.objId = obj.objId ∧
      obj₂.embeddings_model = obj.embeddings_model := by
  obtain ⟨hslot, hinit, hcache⟩ := construct_ok_spec s st m obj h
  have h2 := construct_installed s (construct s st m).1 m₂ obj hslot hinit
  refine ⟨{ obj with cache := some [], initialized := true }, ?_, ?_, rfl, rfl⟩
  · rw [h2]
  · rw [h2]

/-- Witness for C4: a first construction followed by a construction with a
different model argument. -/
theorem C4_witness :
    ∃ obj₂ : PyObj,
      (construct goodSettings
        (construct goodSettings initialState "text-embedding-3-small").1
        "text-embedding-3-large").2 = .ok obj₂ ∧
      (construct goodSettings
        (construct goodSettings initialState "text-embedding-3-small").1
        "text-embedding-3-large").1.instSlot = some obj₂ ∧
      obj₂.objId = (⟨0, some ⟨"text-embedding-3-small", "sk"⟩, some [],
        true⟩ : PyObj).objId ∧
      obj₂.embeddings_model = (⟨0, some ⟨"text-embedding-3-small", "sk"⟩,
        some [], true⟩ : PyObj).embeddings_model :=
  C4_singleton_identity_and_model_ignored goodSettings initialState
    "text-embedding-3-small" "text-embedding-3-large"
    ⟨0, some ⟨"text-embedding-3-small", "sk"⟩, some [], true⟩ rfl

/-- C2 counterexample: with the credential absent, the first construction
raises the configuration error, yet the singleton slot is NOT left empty —
it holds the bare, partially-constructed object, because `__new__` assigns
`cls._instance` before calling `__init__`. -/
theorem C2_counterexample :
    (construct noKeySettings initialState "text-embedding-3-small").2 =
      .error .envError ∧
    (construct noKeySettings initialState
      "text-embedding-3-small").1.instSlot ≠ none := by
  have h1 : construct noKeySettings initialState "text-embedding-3-small" =
      (⟨some ⟨0, none, none, false⟩, 1⟩, .error .envError) :=
    construct_fresh_nokey noKeySettings initialState _ rfl rfl
  rw [h1]
  exact ⟨rfl, by simp⟩

/-- C2 amended: with the credential absent, the first construction raises
the configuration error but leaves the bare, uninitialized object installed
in the singleton slot; a subsequent construction with a valid credential
nevertheless succeeds and yields a fully initialized instance (with the
later call's model), because initialization is re-run on the installed
object. -/
theorem C2_missing_key_then_valid_retry (s₂ : Settings) (m m₂ : String)
    (hk : s₂.keyFalsy = false) :
    (construct noKeySettings initialState m).2 = .error .envError ∧
    (construct noKeySettings initialState m).1.instSlot =
      some ⟨0, none, none, false⟩ ∧
    (construct s₂ (construct noKeySettings initialState m).1 m₂).2 =
      .ok ⟨0, some ⟨m₂, s₂.openai_api_key.getD ""⟩, some [], true⟩ ∧
    (construct s₂ (construct noKeySettings initialState m).1 m₂).1.instSlot =
      some ⟨0, some ⟨m₂, s₂.openai_api_key.getD ""⟩, some [], true⟩ := by
  have h1 : construct noKeySettings initialState m =
      (⟨some ⟨0, none, none, false⟩, 1⟩, .error .envError) :=
    construct_fresh_nokey noKeySettings initialState m rfl rfl
  have h2 := construct_uninstalled_init s₂
      (construct noKeySettings initialState m).1 m₂ ⟨0, none, none, false⟩
      (by rw [h1]) rfl hk
  refine ⟨by rw [h1], by rw [h1], ?_, ?_⟩
  · rw [h2]
  · rw [h2]

/-- Witness for the amended C2 with a concrete valid second credential. -/
theorem C2_witness :
    (construct noKeySettings initialState "text-embedding-3-small").2 =
      .error .envError ∧
    (construct noKeySettings initialState
      "text-embedding-3-small").1.instSlot = some ⟨0, none, none, false⟩ ∧
    (construct goodSettings
      (construct noKeySettings initialState "text-embedding-3-small").1
      "text-embedding-3-small").2 =
      .ok ⟨0, some ⟨"text-embedding-3-small",
        goodSettings.openai_api_key.getD ""⟩, some [], true⟩ ∧
    (construct goodSettings
      (construct noKeySettings initialState "text-embedding-3-small").1
      "text-embedding-3-small").1.instSlot =
      some ⟨0, some ⟨"text-embedding-3-small",
        goodSettings.openai_api_key.getD ""⟩, some [], true⟩ :=
  C2_missing_key_then_valid_retry goodSettings "text-embedding-3-small"
    "text-embedding-3-small" rfl

end EmbeddingsService
